import Mathlib

/-!
Shallow embedding of `river_sentiment_analysis.py`: a streaming sentiment
pipeline with three components communicating through two topics.

* `YelpDataPublisher.publish` — publishes one JSON event per record.
* `YelpDataSubscriber.run_model_pipeline` / `.subscribe` — the online learner:
  predict, conditionally update the confusion matrix, publish a metric
  snapshot, then learn.
* `MetricsSubscriber.check_metrics` / `.subscribe` — the threshold monitor.

Modelling conventions:

* Python floats are modelled as rationals (`ℚ`); `json.loads` numbers too.
* Event payloads are modelled post-parse: `Event.data : Option JObj` where
  `none` stands for bytes that do not parse as a flat JSON object and
  `some fields` for the parsed dictionary.  The payloads this system ever
  produces are flat JSON objects, and every malformed payload leads to the
  same propagating-exception behaviour.
* Python exceptions are modelled with `Except PyErr`; publishes that happened
  before an exception inside one handler call are returned alongside the
  error (`List Event × Except PyErr _`).
* The `river` library collaborators (`BagOfWords`, `MultinomialNB`,
  `ConfusionMatrix`, `Precision`, `Recall`) are embedded from their library
  semantics: counters are insertion-ordered association lists, exactly like
  Python `collections.Counter` / `dict`.
-/

namespace RiverSentiment

/-- A leaf JSON value.  The payloads exchanged by this pipeline are flat
objects whose values are leaves (strings, numbers, booleans, null). -/
inductive JLeaf where
  | jnull : JLeaf
  | jbool : Bool → JLeaf
  | jnum : ℚ → JLeaf
  | jstr : String → JLeaf
deriving DecidableEq, Repr

/-- A parsed flat JSON object: a Python dict as produced by `json.loads`. -/
abbrev JObj := List (String × JLeaf)

/-- The Python exceptions this pipeline can raise per event. -/
inductive PyErr where
  | jsonError : PyErr
  | keyError : String → PyErr
  | typeError : PyErr
  | attributeError : PyErr
deriving DecidableEq, Repr

/-- A pyensign `Event`, modelled post-parse (`none` = payload that is not a
flat JSON object, e.g. invalid JSON bytes). -/
structure Event where
  data : Option JObj
  mimetype : String
deriving DecidableEq, Repr

/-- `json.loads(event.data)`: fails with a propagating error on a malformed
payload. -/
def jsonLoads (d : Option JObj) : Except PyErr JObj :=
  match d with
  | some record => .ok record
  | none => .error .jsonError

/-- Python dict lookup `record[k]`: `KeyError` when the key is absent.
(The dictionaries built by this pipeline have distinct keys.) -/
def getKey : JObj → String → Except PyErr JLeaf
  | [], k => .error (.keyError k)
  | (k2, v) :: rest, k => if k2 = k then .ok v else getKey rest k

/-- Fetch `record[k]` and require a string, as `record["text"]` must be:
a non-string value raises `AttributeError` at `text.lower()` inside the
vectorizer before anything else happens. -/
def getStr (record : JObj) (k : String) : Except PyErr String :=
  match getKey record k with
  | .ok (.jstr s) => .ok s
  | .ok _ => .error .attributeError
  | .error e => .error e

/-- Python `x < t` for a JSON value against a float threshold: numbers and
booleans (which are ints in Python) compare; anything else raises
`TypeError`. -/
def pyLt (v : JLeaf) (t : ℚ) : Except PyErr Bool :=
  match v with
  | .jnum q => .ok (decide (q < t))
  | .jbool b => .ok (decide ((if b then (1 : ℚ) else 0) < t))
  | _ => .error .typeError

/-! ### BagOfWords(lowercase=True)

`transform_one` tokenizes with `re.findall(r"(?u)\b\w\w+\b", text.lower())`
— the maximal runs of word characters of length at least two — and counts
tokens in first-occurrence order (a `collections.Counter`).  We model the
ASCII fragment of `\w` and of lowercasing. -/

/-- A regex word character (`\w`), ASCII fragment. -/
def isWordChar (c : Char) : Bool := c.isAlphanum || c == '_'

/-- Maximal runs of word characters of a character list. -/
def wordRuns : List Char → List Char → List (List Char)
  | [], acc => if acc.isEmpty then [] else [acc.reverse]
  | c :: cs, acc =>
    if isWordChar c then wordRuns cs (c :: acc)
    else if acc.isEmpty then wordRuns cs [] else acc.reverse :: wordRuns cs []

/-- `re.findall(r"(?u)\b\w\w+\b", text.lower())`.  Lowercasing is applied
per character (equivalent to `str.lower` on the ASCII fragment). -/
def tokenize (text : String) : List String :=
  ((wordRuns (text.toList.map Char.toLower) []).filter
      (fun r => 2 ≤ r.length)).map
    (fun r => String.mk r)

/-- `Counter.update`-style bump of an insertion-ordered association list:
add `v` to the count of `k`, appending `k` at the end if new. -/
def bump {α : Type} [DecidableEq α] : List (α × ℕ) → α → ℕ → List (α × ℕ)
  | [], k, v => [(k, v)]
  | (k2, v2) :: rest, k, v =>
    if k2 = k then (k2, v2 + v) :: rest else (k2, v2) :: bump rest k v

/-- Count lookup with default 0 (`Counter.__getitem__`). -/
def cntGet {α : Type} [DecidableEq α] (m : List (α × ℕ)) (k : α) : ℕ :=
  match m with
  | [] => 0
  | (k2, v2) :: rest => if k2 = k then v2 else cntGet rest k

/-- `collections.Counter(tokens)`: token counts in first-occurrence order. -/
def counterOf (tokens : List String) : List (String × ℕ) :=
  tokens.foldl (fun m t => bump m t 1) []

/-- `BagOfWords(lowercase=True).transform_one(text)`. -/
def transform_one (text : String) : List (String × ℕ) :=
  counterOf (tokenize text)

/-! ### MultinomialNB (alpha = 1.0 by default)

State: `class_counts : Counter`, `feature_counts : defaultdict(Counter)`
keyed by feature then class, `class_totals : Counter` — all insertion
ordered.  `predict_one` returns `None` when no class has been seen;
otherwise it returns the class maximising the joint likelihood.  The
Python code maximises softmax probabilities of joint *log* likelihoods;
the logarithm and softmax are strictly monotone, so the argmax equals the
argmax of the product-form `score` below, which stays in `ℚ`.  (Rational
division by zero yields 0; the only Python divergence is a
`ZeroDivisionError` in the unreachable corner where classes were learned
but no feature was ever seen while the query text has a token.) -/

structure MultinomialNB where
  alpha : ℚ
  class_counts : List (JLeaf × ℕ)
  feature_counts : List (String × List (JLeaf × ℕ))
  class_totals : List (JLeaf × ℕ)
deriving DecidableEq, Repr

/-- `defaultdict(Counter)` bump: `feature_counts[f].update(\x7by: freq\x7d)`. -/
def bumpNested : List (String × List (JLeaf × ℕ)) → String → JLeaf → ℕ →
    List (String × List (JLeaf × ℕ))
  | [], f, y, freq => [(f, bump [] y freq)]
  | (f2, cnt) :: rest, f, y, freq =>
    if f2 = f then (f2, bump cnt y freq) :: rest
    else (f2, cnt) :: bumpNested rest f y freq

/-- `MultinomialNB.learn_one(x, y)` on an already-transformed bag `x`. -/
def MultinomialNB.learn_bow (m : MultinomialNB) (x : List (String × ℕ))
    (y : JLeaf) : MultinomialNB :=
  let start := { m with class_counts := bump m.class_counts y 1 }
  x.foldl
    (fun acc fv =>
      { acc with
        feature_counts := bumpNested acc.feature_counts fv.1 y fv.2,
        class_totals := bump acc.class_totals y fv.2 })
    start

/-- `p_class(c) = class_counts[c] / sum(class_counts.values())`. -/
def MultinomialNB.p_class (m : MultinomialNB) (c : JLeaf) : ℚ :=
  (cntGet m.class_counts c : ℚ) /
    ((m.class_counts.map Prod.snd).sum : ℚ)

/-- `feature_counts.get(f, \x7b\x7d).get(c, 0)` without defaultdict insertion. -/
def MultinomialNB.featGet (m : MultinomialNB) (f : String) (c : JLeaf) : ℕ :=
  match m.feature_counts.find? (fun p => p.1 = f) with
  | some p => cntGet p.2 c
  | none => 0

/-- `p_feature_given_class(f, c)` with Laplace smoothing `alpha`. -/
def MultinomialNB.p_feature_given_class (m : MultinomialNB) (f : String)
    (c : JLeaf) : ℚ :=
  ((m.featGet f c : ℚ) + m.alpha) /
    ((cntGet m.class_totals c : ℚ) + m.alpha * (m.feature_counts.length : ℚ))

/-- The exponential of the joint log likelihood of bag `x` for class `c`:
`p_class(c) * prod over (f, freq) in x of p_fgc(f, c) ^ freq`. -/
def MultinomialNB.score (m : MultinomialNB) (x : List (String × ℕ))
    (c : JLeaf) : ℚ :=
  m.p_class c * (x.map (fun fv => m.p_feature_given_class fv.1 c ^ fv.2)).prod

/-- First maximiser of `f` over a list (Python `max(d, key=d.get)` keeps the
first key attaining the maximum, in insertion order). -/
def argmaxQ {α : Type} (f : α → ℚ) : List α → Option α
  | [] => none
  | a :: as => some (as.foldl (fun best x => if f best < f x then x else best) a)

/-- `MultinomialNB.predict_one` on a transformed bag: `None` when no class
has been observed, else the class of maximal (soft-maxed joint-likelihood)
probability, first seen winning ties. -/
def MultinomialNB.predict_bow (m : MultinomialNB) (x : List (String × ℕ)) :
    Option JLeaf :=
  match m.class_counts with
  | [] => none
  | _ => argmaxQ (m.score x) (m.class_counts.map Prod.fst)

/-- The model built by `initialize_model_and_metrics`:
`Pipeline(('vectorizer', BagOfWords(lowercase=True)), ('nb', MultinomialNB()))`.
`BagOfWords` is stateless, so the pipeline state is the classifier state. -/
def initModel : MultinomialNB :=
  { alpha := 1, class_counts := [], feature_counts := [], class_totals := [] }

/-- `model.predict_one(text)` for the two-stage pipeline. -/
def predict_one (m : MultinomialNB) (text : String) : Option JLeaf :=
  m.predict_bow (transform_one text)

/-- `model.learn_one(text, label)` for the two-stage pipeline. -/
def learn_one (m : MultinomialNB) (text : String) (label : JLeaf) :
    MultinomialNB :=
  m.learn_bow (transform_one text) label

/-! ### ConfusionMatrix, Precision, Recall

`metrics.ConfusionMatrix(classes=[0,1])` accumulates `(y_true, y_pred)`
observations with unit weight.  We represent the matrix by the
chronological list of its updates; every cell count is derived by
counting.  (The `classes` argument only pre-registers display classes with
zero counts; it does not affect any count or metric value.)
`metrics.Precision(cm, pos_val=0)` and `metrics.Recall(cm, pos_val=0)`
share this matrix and read it at `get()` time; on a zero denominator the
library catches `ZeroDivisionError` and returns `0.0`. -/

/-- The confusion matrix as the list of its `(y_true, y_pred)` updates. -/
abbrev CM := List (JLeaf × JLeaf)

/-- `confusion_matrix.update(y_true, y_pred)`. -/
def cmUpdate (cm : CM) (y_true y_pred : JLeaf) : CM := cm ++ [(y_true, y_pred)]

/-- The count in cell `(t, p)`: data[t][p]. -/
def cmCount (cm : CM) (t p : JLeaf) : ℕ :=
  (cm : Multiset (JLeaf × JLeaf)).count (t, p)

/-- The sum of all cells of the confusion matrix: every populated cell's
count, summed. -/
def cmSumCells (cm : CM) : ℕ :=
  ∑ q ∈ (cm : Multiset (JLeaf × JLeaf)).toFinset,
    (cm : Multiset (JLeaf × JLeaf)).count q

/-- The positive class configured in `initialize_model_and_metrics`:
`pos_val=0`. -/
def pos_val : JLeaf := .jnum 0

/-- `cm.true_positives(pos_val)`. -/
def true_positives (cm : CM) : ℕ := cmCount cm pos_val pos_val

/-- `cm.false_positives(pos_val)`: predicted positive, truly negative. -/
def false_positives (cm : CM) : ℕ :=
  cm.countP (fun q => q.2 = pos_val && !(q.1 = pos_val))

/-- `cm.false_negatives(pos_val)`: truly positive, predicted negative. -/
def false_negatives (cm : CM) : ℕ :=
  cm.countP (fun q => q.1 = pos_val && !(q.2 = pos_val))

/-- The denominator of `Precision.get()`. -/
def precisionDen (cm : CM) : ℕ := true_positives cm + false_positives cm

/-- The denominator of `Recall.get()`. -/
def recallDen (cm : CM) : ℕ := true_positives cm + false_negatives cm

/-- `Precision(cm=confusion_matrix, pos_val=0).get()`; `0.0` on a zero
denominator (caught `ZeroDivisionError`). -/
def precisionGet (cm : CM) : ℚ :=
  if precisionDen cm = 0 then 0
  else (true_positives cm : ℚ) / (precisionDen cm : ℚ)

/-- `Recall(cm=confusion_matrix, pos_val=0).get()`; `0.0` on a zero
denominator. -/
def recallGet (cm : CM) : ℚ :=
  if recallDen cm = 0 then 0
  else (true_positives cm : ℚ) / (recallDen cm : ℚ)

/-! ### YelpDataPublisher -/

/-- The event a publisher sends for one record: a JSON serialization of the
record dict with `mimetype="application/json"`.  Serialization is modelled
at the parsed-value level (`json.dumps` then `json.loads` round-trips a
flat dict). -/
def mkEvent (record : JObj) : Event :=
  { data := some record, mimetype := "application/json" }

/-- `YelpDataPublisher.publish`: one event per record of the loaded source,
in source order.  The CSV load is the external data source, modelled as the
input list. -/
def YelpDataPublisher.publish (records : List JObj) : List Event :=
  records.map mkEvent

/-! ### YelpDataSubscriber (the Online Learner) -/

/-- The online learner's state: topics plus the model and metric objects
created by `initialize_model_and_metrics`.  (`classification_report`
accumulates the same observations as the confusion matrix and is never
read by the pipeline.) -/
structure YelpDataSubscriber where
  sub_topic : String
  pub_topic : String
  model : MultinomialNB
  confusion_matrix : CM
  classification_report : CM
deriving DecidableEq, Repr

/-- A freshly constructed `YelpDataSubscriber()` after
`initialize_model_and_metrics`. -/
def YelpDataSubscriber.initState : YelpDataSubscriber :=
  { sub_topic := "river_pipeline", pub_topic := "river_metrics",
    model := initModel, confusion_matrix := [], classification_report := [] }

/-- The `if y_pred is not None:` block of `run_model_pipeline`: update the
confusion matrix and the classification report with
`(record["sentiment"], y_pred)`; `record["sentiment"]` can raise
`KeyError` here. -/
def updateMetrics (record : JObj) (y_pred : Option JLeaf) (cm cr : CM) :
    Except PyErr (CM × CM) :=
  match y_pred with
  | none => .ok (cm, cr)
  | some p =>
    match getKey record "sentiment" with
    | .error err => .error err
    | .ok y_true => .ok (cmUpdate cm y_true p, cmUpdate cr y_true p)

/-- The metric-snapshot event published at each step:
`pr_dict = \x7b"precision": pr_list[0], "recall": pr_list[1]\x7d` serialized as
JSON. -/
def snapshotEvent (p r : ℚ) : Event :=
  mkEvent [("precision", .jnum p), ("recall", .jnum r)]

/-- `YelpDataSubscriber.run_model_pipeline(event)`.  Returns the list of
events published during the call (empty if an exception fired before the
publish) and either the updated state paired with the step's local
`y_pred`, or the propagating exception.  Statements in source order:
deserialize, predict, conditionally update metrics, publish the snapshot,
learn. -/
def run_model_pipeline (s : YelpDataSubscriber) (e : Event) :
    List Event × Except PyErr (YelpDataSubscriber × Option JLeaf) :=
  match jsonLoads e.data with
  | .error err => ([], .error err)
  | .ok record =>
    match getStr record "text" with
    | .error err => ([], .error err)
    | .ok text =>
      let y_pred := predict_one s.model text
      match updateMetrics record y_pred s.confusion_matrix
          s.classification_report with
      | .error err => ([], .error err)
      | .ok (cm2, cr2) =>
        let pub := snapshotEvent (precisionGet cm2) (recallGet cm2)
        match getKey record "sentiment" with
        | .error err => ([pub], .error err)
        | .ok sentiment =>
          ([pub],
           .ok ({ s with
                    model := learn_one s.model text sentiment,
                    confusion_matrix := cm2,
                    classification_report := cr2 },
                y_pred))

/-- `YelpDataSubscriber.subscribe` over a finite event sequence: process
events in order, accumulating published snapshot events and the per-step
predictions; stop at the first propagating exception. -/
def YelpDataSubscriber.subscribe (s : YelpDataSubscriber) :
    List Event → List Event × List (Option JLeaf) ×
      Except PyErr YelpDataSubscriber
  | [] => ([], [], .ok s)
  | e :: es =>
    match run_model_pipeline s e with
    | (pub, .error err) => (pub, [], .error err)
    | (pub, .ok (s2, yp)) =>
      (pub ++ (YelpDataSubscriber.subscribe s2 es).1,
       yp :: (YelpDataSubscriber.subscribe s2 es).2.1,
       (YelpDataSubscriber.subscribe s2 es).2.2)

/-! ### MetricsSubscriber (the Metrics Monitor) -/

/-- The monitor's state.  `logger` is `none` when the constructor default
`logger=None` is in force; only its presence matters for `.warn`. -/
structure MetricsSubscriber where
  topic : String
  threshold : ℚ
  logger : Option Unit
deriving DecidableEq, Repr

/-- `MetricsSubscriber()` with all constructor defaults:
`topic="river_metrics"`, `threshold=0.60`, `logger=None`. -/
def defaultMetricsSubscriber : MetricsSubscriber :=
  { topic := "river_metrics", threshold := (0.60 : ℚ), logger := none }

/-- A warning logged by the monitor, with the offending value. -/
inductive Warning where
  | precisionBelow : JLeaf → Warning
  | recallBelow : JLeaf → Warning
deriving DecidableEq, Repr

/-- `self.logger.warn(...)`: raises `AttributeError` when `self.logger`
is `None`. -/
def warnLog (logger : Option Unit) (w : Warning) : Except PyErr (List Warning) :=
  match logger with
  | none => .error .attributeError
  | some _ => .ok [w]

/-- `MetricsSubscriber.check_metrics(event)`: deserialize, fetch
`precision` and `recall`, then compare each against the threshold in order,
logging a warning for each strict breach. -/
def check_metrics (s : MetricsSubscriber) (e : Event) :
    Except PyErr (List Warning) :=
  match jsonLoads e.data with
  | .error err => .error err
  | .ok metric_info =>
    match getKey metric_info "precision" with
    | .error err => .error err
    | .ok precisionVal =>
      match getKey metric_info "recall" with
      | .error err => .error err
      | .ok recallVal =>
        match pyLt precisionVal s.threshold with
        | .error err => .error err
        | .ok bp =>
          match (if bp then warnLog s.logger (.precisionBelow precisionVal)
                 else .ok []) with
          | .error err => .error err
          | .ok w1 =>
            match pyLt recallVal s.threshold with
            | .error err => .error err
            | .ok br =>
              match (if br then warnLog s.logger (.recallBelow recallVal)
                     else .ok []) with
              | .error err => .error err
              | .ok w2 => .ok (w1 ++ w2)

/-- `MetricsSubscriber.subscribe` over a finite event sequence: per-event
warning batches, stopping at the first propagating exception. -/
def MetricsSubscriber.subscribe (s : MetricsSubscriber) :
    List Event → List (List Warning) × Except PyErr Unit
  | [] => ([], .ok ())
  | e :: es =>
    match check_metrics s e with
    | .error err => ([], .error err)
    | .ok ws =>
      (ws :: (MetricsSubscriber.subscribe s es).1,
       (MetricsSubscriber.subscribe s es).2)

/-! ### Record streams and the learner's trace

Well-formed input events carry a record with a `text` string and a
`sentiment` label; `recordEvent` builds one, exactly as the publisher
serializes a record.  `stepR`/`foldR`/`predsR`/`cmTraceR`/`pubsR` give the
learner's state evolution, per-step predictions, confusion-matrix trace
and published events over such a stream; `subscribe_records` proves they
are what `YelpDataSubscriber.subscribe` computes. -/

/-- The conditional confusion-matrix update of one step: update only when
the step's prediction was not `None`. -/
def cmStep (cm : CM) (y_true : JLeaf) (yp : Option JLeaf) : CM :=
  match yp with
  | some p => cmUpdate cm y_true p
  | none => cm

/-- The input-topic event for a record with the given text and label. -/
def recordEvent (t : String) (l : JLeaf) : Event :=
  mkEvent [("text", .jstr t), ("sentiment", l)]

/-- One well-formed step of the learner's state: predict from the incoming
model, conditionally update both metric accumulators, learn. -/
def stepR (s : YelpDataSubscriber) (t : String) (l : JLeaf) :
    YelpDataSubscriber :=
  let y_pred := predict_one s.model t
  { s with
      model := learn_one s.model t l,
      confusion_matrix := cmStep s.confusion_matrix l y_pred,
      classification_report := cmStep s.classification_report l y_pred }

/-- The learner's state after a stream of records. -/
def foldR (s : YelpDataSubscriber) (ts : List (String × JLeaf)) :
    YelpDataSubscriber :=
  ts.foldl (fun s2 p => stepR s2 p.1 p.2) s

/-- The prediction made at each step of a record stream. -/
def predsR (s : YelpDataSubscriber) : List (String × JLeaf) →
    List (Option JLeaf)
  | [] => []
  | (t, l) :: ts => predict_one s.model t :: predsR (stepR s t l) ts

/-- The confusion matrix at each publish, i.e. after each step's
conditional update. -/
def cmTraceR (s : YelpDataSubscriber) : List (String × JLeaf) → List CM
  | [] => []
  | (t, l) :: ts =>
    (stepR s t l).confusion_matrix :: cmTraceR (stepR s t l) ts

/-- The events the learner publishes over a record stream: one snapshot per
step, read off the confusion matrix after that step's update. -/
def pubsR (s : YelpDataSubscriber) (ts : List (String × JLeaf)) :
    List Event :=
  (cmTraceR s ts).map (fun c => snapshotEvent (precisionGet c) (recallGet c))

/-- Run the learner's subscribe loop on the events of a record stream. -/
def runOnRecords (s : YelpDataSubscriber) (ts : List (String × JLeaf)) :
    List Event × List (Option JLeaf) × Except PyErr YelpDataSubscriber :=
  YelpDataSubscriber.subscribe s (ts.map (fun p => recordEvent p.1 p.2))

lemma run_model_pipeline_record (s : YelpDataSubscriber) (t : String)
    (l : JLeaf) :
    run_model_pipeline s (recordEvent t l) =
      ([snapshotEvent
          (precisionGet (cmStep s.confusion_matrix l (predict_one s.model t)))
          (recallGet (cmStep s.confusion_matrix l (predict_one s.model t)))],
       .ok (stepR s t l, predict_one s.model t)) := by
  cases h : predict_one s.model t <;>
    simp [run_model_pipeline, recordEvent, mkEvent, jsonLoads, getStr,
      getKey, updateMetrics, cmStep, stepR, h]

lemma stepR_confusion_matrix (s : YelpDataSubscriber) (t : String)
    (l : JLeaf) :
    (stepR s t l).confusion_matrix =
      cmStep s.confusion_matrix l (predict_one s.model t) := rfl

lemma stepR_model (s : YelpDataSubscriber) (t : String) (l : JLeaf) :
    (stepR s t l).model = learn_one s.model t l := rfl

lemma subscribe_records (ts : List (String × JLeaf))
    (s : YelpDataSubscriber) :
    runOnRecords s ts = (pubsR s ts, predsR s ts, .ok (foldR s ts)) := by
  induction ts generalizing s with
  | nil => rfl
  | cons p ts ih =>
    obtain ⟨t, l⟩ := p
    have ih2 := ih (stepR s t l)
    simp only [runOnRecords, List.map_cons] at ih2 ⊢
    simp [YelpDataSubscriber.subscribe, run_model_pipeline_record, ih2,
      pubsR, cmTraceR, predsR, foldR, stepR_confusion_matrix]

/-! ### Supporting lemmas -/

lemma predsR_length (ts : List (String × JLeaf)) :
    ∀ s, (predsR s ts).length = ts.length := by
  induction ts with
  | nil => intro s; rfl
  | cons p ts ih =>
    intro s
    obtain ⟨t, l⟩ := p
    simp [predsR, ih]

lemma cmTraceR_length (ts : List (String × JLeaf)) :
    ∀ s, (cmTraceR s ts).length = ts.length := by
  induction ts with
  | nil => intro s; rfl
  | cons p ts ih =>
    intro s
    obtain ⟨t, l⟩ := p
    simp [cmTraceR, ih]

lemma pubsR_length (s : YelpDataSubscriber) (ts : List (String × JLeaf)) :
    (pubsR s ts).length = ts.length := by
  simp [pubsR, cmTraceR_length]

lemma foldR_cons (s : YelpDataSubscriber) (t : String) (l : JLeaf)
    (ts : List (String × JLeaf)) :
    foldR s ((t, l) :: ts) = foldR (stepR s t l) ts := rfl

lemma foldR_append (s : YelpDataSubscriber) (ts us : List (String × JLeaf)) :
    foldR s (ts ++ us) = foldR (foldR s ts) us := by
  simp [foldR, List.foldl_append]

lemma predsR_append (ts us : List (String × JLeaf)) :
    ∀ s, predsR s (ts ++ us) = predsR s ts ++ predsR (foldR s ts) us := by
  induction ts with
  | nil => intro s; simp [predsR, foldR]
  | cons p ts ih =>
    intro s
    obtain ⟨t, l⟩ := p
    simp [predsR, foldR_cons, ih]

lemma cmCount_cmStep_le (cm : CM) (l : JLeaf) (yp : Option JLeaf)
    (a b : JLeaf) : cmCount cm a b ≤ cmCount (cmStep cm l yp) a b := by
  cases yp with
  | none => exact le_refl _
  | some p =>
    show cmCount cm a b ≤ cmCount (cm ++ [(l, p)]) a b
    simp only [cmCount]
    rw [show ((cm ++ [(l, p)] : List (JLeaf × JLeaf)) :
        Multiset (JLeaf × JLeaf)) = (cm : Multiset (JLeaf × JLeaf)) +
        ([(l, p)] : List (JLeaf × JLeaf)) from rfl]
    rw [Multiset.count_add]
    exact Nat.le_add_right _ _

lemma cmCount_foldR_le (us : List (String × JLeaf)) (a b : JLeaf) :
    ∀ s, cmCount s.confusion_matrix a b ≤
      cmCount (foldR s us).confusion_matrix a b := by
  induction us with
  | nil => intro s; exact le_refl _
  | cons p us ih =>
    intro s
    obtain ⟨t, l⟩ := p
    calc cmCount s.confusion_matrix a b
        ≤ cmCount (stepR s t l).confusion_matrix a b := by
          rw [stepR_confusion_matrix]; exact cmCount_cmStep_le _ _ _ _ _
      _ ≤ cmCount (foldR (stepR s t l) us).confusion_matrix a b := ih _
      _ = cmCount (foldR s ((t, l) :: us)).confusion_matrix a b := by
          rw [foldR_cons]

lemma cmStep_length (cm : CM) (l : JLeaf) (yp : Option JLeaf) :
    (cmStep cm l yp).length = cm.length + (if yp.isSome then 1 else 0) := by
  cases yp <;> simp [cmStep, cmUpdate]

lemma foldR_cm_length (ts : List (String × JLeaf)) :
    ∀ s, (foldR s ts).confusion_matrix.length =
      s.confusion_matrix.length +
        (predsR s ts).countP (fun o => o.isSome) := by
  induction ts with
  | nil => intro s; simp [foldR, predsR]
  | cons p ts ih =>
    intro s
    obtain ⟨t, l⟩ := p
    rw [foldR_cons, ih]
    simp only [predsR, stepR_confusion_matrix, cmStep_length,
      List.countP_cons]
    cases h : predict_one s.model t
    all_goals simp
    all_goals omega

lemma cmSumCells_eq_length (cm : CM) : cmSumCells cm = cm.length := by
  unfold cmSumCells
  rw [Multiset.toFinset_sum_count_eq]
  exact Multiset.coe_card cm

lemma precisionGet_bounds (cm : CM) (h : precisionDen cm ≠ 0) :
    0 ≤ precisionGet cm ∧ precisionGet cm ≤ 1 := by
  rw [precisionGet, if_neg h]
  have hpos : (0 : ℚ) < (precisionDen cm : ℚ) := by
    exact_mod_cast Nat.pos_of_ne_zero h
  constructor
  · exact div_nonneg (Nat.cast_nonneg _) (Nat.cast_nonneg _)
  · rw [div_le_one hpos]
    exact_mod_cast Nat.le_add_right _ _

lemma recallGet_bounds (cm : CM) (h : recallDen cm ≠ 0) :
    0 ≤ recallGet cm ∧ recallGet cm ≤ 1 := by
  rw [recallGet, if_neg h]
  have hpos : (0 : ℚ) < (recallDen cm : ℚ) := by
    exact_mod_cast Nat.pos_of_ne_zero h
  constructor
  · exact div_nonneg (Nat.cast_nonneg _) (Nat.cast_nonneg _)
  · rw [div_le_one hpos]
    exact_mod_cast Nat.le_add_right _ _

lemma subscribe_append (ys : List Event) :
    ∀ (xs : List Event) (s : YelpDataSubscriber)
      (pubs : List Event) (preds : List (Option JLeaf))
      (s2 : YelpDataSubscriber),
      YelpDataSubscriber.subscribe s xs = (pubs, preds, .ok s2) →
      YelpDataSubscriber.subscribe s (xs ++ ys) =
        (pubs ++ (YelpDataSubscriber.subscribe s2 ys).1,
         preds ++ (YelpDataSubscriber.subscribe s2 ys).2.1,
         (YelpDataSubscriber.subscribe s2 ys).2.2) := by
  intro xs
  induction xs with
  | nil =>
    intro s pubs preds s2 h
    simp [YelpDataSubscriber.subscribe] at h
    obtain ⟨h1, h2, h3⟩ := h
    subst h1; subst h2; subst h3
    simp
  | cons e es ih =>
    intro s pubs preds s2 h
    rw [List.cons_append]
    simp only [YelpDataSubscriber.subscribe] at h ⊢
    cases hr : run_model_pipeline s e with
    | mk pub res =>
      cases res with
      | error err =>
        rw [hr] at h
        simp at h
      | ok pr =>
        obtain ⟨s3, yp⟩ := pr
        rw [hr] at h
        dsimp only at h ⊢
        cases hs : YelpDataSubscriber.subscribe s3 es with
        | mk a bc =>
          obtain ⟨b, c⟩ := bc
          rw [hs] at h
          simp only [Prod.mk.injEq] at h
          obtain ⟨h1, h2, h3⟩ := h
          subst h1; subst h2; subst h3
          rw [ih s3 a b s2 hs]
          simp

lemma msubscribe_append (ys : List Event) :
    ∀ (xs : List Event) (m : MetricsSubscriber) (wss : List (List Warning)),
      MetricsSubscriber.subscribe m xs = (wss, .ok ()) →
      MetricsSubscriber.subscribe m (xs ++ ys) =
        (wss ++ (MetricsSubscriber.subscribe m ys).1,
         (MetricsSubscriber.subscribe m ys).2) := by
  intro xs
  induction xs with
  | nil =>
    intro m wss h
    simp [MetricsSubscriber.subscribe] at h
    subst h
    simp
  | cons e es ih =>
    intro m wss h
    rw [List.cons_append]
    simp only [MetricsSubscriber.subscribe] at h ⊢
    cases hc : check_metrics m e with
    | error err =>
      rw [hc] at h
      simp at h
    | ok ws =>
      rw [hc] at h
      dsimp only at h ⊢
      cases hs : MetricsSubscriber.subscribe m es with
      | mk a c =>
        rw [hs] at h
        simp only [Prod.mk.injEq] at h
        obtain ⟨h1, h2⟩ := h
        subst h1; subst h2
        rw [ih m a hs]
        simp

lemma check_metrics_ext (m1 m2 : MetricsSubscriber) (e : Event)
    (ht : m1.threshold = m2.threshold) (hl : m1.logger = m2.logger) :
    check_metrics m1 e = check_metrics m2 e := by
  cases m1 with
  | mk t1 th1 lg1 =>
    cases m2 with
    | mk t2 th2 lg2 =>
      dsimp at ht hl
      subst ht; subst hl
      rfl

lemma check_metrics_snapshot_logged (top : String) (thr p r : ℚ) :
    check_metrics ⟨top, thr, some ()⟩ (snapshotEvent p r) =
      .ok ((if p < thr then [Warning.precisionBelow (.jnum p)] else []) ++
           (if r < thr then [Warning.recallBelow (.jnum r)] else [])) := by
  by_cases hp : p < thr <;> by_cases hr : r < thr <;>
    simp [check_metrics, snapshotEvent, mkEvent, jsonLoads, getKey, pyLt,
      warnLog, hp, hr]

lemma check_metrics_nologger_breach (top : String) (thr p r : ℚ)
    (h : p < thr ∨ r < thr) :
    check_metrics ⟨top, thr, none⟩ (snapshotEvent p r) =
      .error .attributeError := by
  by_cases hp : p < thr
  · simp [check_metrics, snapshotEvent, mkEvent, jsonLoads, getKey, pyLt,
      warnLog, hp]
  · have hr : r < thr := h.resolve_left hp
    simp [check_metrics, snapshotEvent, mkEvent, jsonLoads, getKey, pyLt,
      warnLog, hp, hr]

lemma check_metrics_nologger_ok (top : String) (thr p r : ℚ)
    (hp : ¬ p < thr) (hr : ¬ r < thr) :
    check_metrics ⟨top, thr, none⟩ (snapshotEvent p r) = .ok [] := by
  simp [check_metrics, snapshotEvent, mkEvent, jsonLoads, getKey, pyLt,
    warnLog, hp, hr]

/-! ### The claims -/

/-- C1, counterexample: processing one record event with a freshly
initialized learner publishes one metric-snapshot event even though the
step's prediction was `None`, so the number of published events (1) is not
the number of events with a non-null prediction (0) — the publish in
`run_model_pipeline` is unconditional. -/
theorem c1_counterexample :
    (runOnRecords YelpDataSubscriber.initState
        [("good food", .jnum 1)]).1.length = 1 ∧
    (runOnRecords YelpDataSubscriber.initState
        [("good food", .jnum 1)]).2.1 = [none] ∧
    ¬ ((runOnRecords YelpDataSubscriber.initState
          [("good food", .jnum 1)]).1.length =
       (runOnRecords YelpDataSubscriber.initState
          [("good food", .jnum 1)]).2.1.countP (fun o => o.isSome)) := by
  refine ⟨by decide, by decide, by decide⟩

/-- C1, amended: the Online Learner publishes exactly one metric-snapshot
event per processed input event, whether or not `model.predict_one`
returned a prediction; the first event of a freshly initialized learner
yields a null prediction yet still one published snapshot, and the model
is updated afterward. -/
theorem c1_one_snapshot_per_event :
    (∀ (s : YelpDataSubscriber) (ts : List (String × JLeaf)),
      (runOnRecords s ts).1.length = ts.length) ∧
    (∀ t : String, predict_one YelpDataSubscriber.initState.model t = none) ∧
    (∀ (t : String) (l : JLeaf),
      (foldR YelpDataSubscriber.initState [(t, l)]).model =
        learn_one YelpDataSubscriber.initState.model t l) := by
  refine ⟨?_, ?_, ?_⟩
  · intro s ts
    rw [subscribe_records]
    exact pubsR_length s ts
  · intro t
    rfl
  · intro t l
    rfl

/-- C2: for every snapshot checked by `check_metrics` with a logger present
and threshold `thr`, a precision warning is emitted iff `precision < thr`
and, independently, a recall warning iff `recall < thr`; the scenario
snapshot (0.55, 0.80) at threshold 0.60 yields exactly the single
precision warning, and (0.60, 0.60) yields none (strict comparison). -/
theorem c2_warning_iff_strictly_below :
    (∀ (top : String) (thr p r : ℚ), ∃ ws : List Warning,
      check_metrics ⟨top, thr, some ()⟩ (snapshotEvent p r) = .ok ws ∧
      (Warning.precisionBelow (.jnum p) ∈ ws ↔ p < thr) ∧
      (Warning.recallBelow (.jnum r) ∈ ws ↔ r < thr) ∧
      ws.length = (if p < thr then 1 else 0) + (if r < thr then 1 else 0)) ∧
    check_metrics ⟨"river_metrics", (0.60 : ℚ), some ()⟩
        (snapshotEvent (0.55 : ℚ) (0.80 : ℚ)) =
      .ok [Warning.precisionBelow (.jnum (0.55 : ℚ))] ∧
    check_metrics ⟨"river_metrics", (0.60 : ℚ), some ()⟩
        (snapshotEvent (0.60 : ℚ) (0.60 : ℚ)) = .ok [] := by
  refine ⟨?_, ?_, ?_⟩
  · intro top thr p r
    refine ⟨_, check_metrics_snapshot_logged top thr p r, ?_, ?_, ?_⟩
    · by_cases hp : p < thr <;> by_cases hr : r < thr <;> simp [hp, hr]
    · by_cases hp : p < thr <;> by_cases hr : r < thr <;> simp [hp, hr]
    · by_cases hp : p < thr <;> by_cases hr : r < thr <;> simp [hp, hr]
  · rw [check_metrics_snapshot_logged]
    norm_num
  · rw [check_metrics_snapshot_logged]
    norm_num

/-- C3: the prediction recorded for the record at position `pre.length` is
computed from the model state after exactly the records before it — it is
unchanged under any change of that record's own label (and of the later
records), and the model only learns that record's label in the state after
the step (predict strictly before learn). -/
theorem c3_predict_before_learn :
    ∀ (s : YelpDataSubscriber) (pre : List (String × JLeaf)) (t : String)
      (l1 l2 : JLeaf) (post1 post2 : List (String × JLeaf)),
      (runOnRecords s (pre ++ (t, l1) :: post1)).2.1[pre.length]? =
        some (predict_one (foldR s pre).model t) ∧
      (runOnRecords s (pre ++ (t, l1) :: post1)).2.1[pre.length]? =
        (runOnRecords s (pre ++ (t, l2) :: post2)).2.1[pre.length]? ∧
      (foldR s (pre ++ [(t, l1)])).model =
        learn_one (foldR s pre).model t l1 := by
  intro s pre t l1 l2 post1 post2
  have key : ∀ (l : JLeaf) (post : List (String × JLeaf)),
      (runOnRecords s (pre ++ (t, l) :: post)).2.1[pre.length]? =
        some (predict_one (foldR s pre).model t) := by
    intro l post
    rw [subscribe_records]
    show (predsR s (pre ++ (t, l) :: post))[pre.length]? = _
    rw [predsR_append, List.getElem?_append_right (by rw [predsR_length])]
    rw [predsR_length]
    simp [predsR]
  refine ⟨key l1 post1, ?_, ?_⟩
  · rw [key l1 post1, key l2 post2]
  · rw [foldR_append]
    rfl

/-- C4: every confusion-matrix cell is monotonically non-decreasing along
the run (the matrix is never reset), and after any prefix of the record
stream the sum of all cells equals the number of events in that prefix
whose prediction was non-null; the final state of the subscribe loop is
the fold of the per-record steps. -/
theorem c4_confusion_matrix_monotone_sum :
    (∀ (s : YelpDataSubscriber) (ts more : List (String × JLeaf))
       (t p : JLeaf),
      cmCount (foldR s ts).confusion_matrix t p ≤
        cmCount (foldR s (ts ++ more)).confusion_matrix t p) ∧
    (∀ ts : List (String × JLeaf),
      cmSumCells (foldR YelpDataSubscriber.initState ts).confusion_matrix =
        (predsR YelpDataSubscriber.initState ts).countP
          (fun o => o.isSome)) ∧
    (∀ (s : YelpDataSubscriber) (ts : List (String × JLeaf)),
      (runOnRecords s ts).2.2 = .ok (foldR s ts)) := by
  refine ⟨?_, ?_, ?_⟩
  · intro s ts more t p
    rw [foldR_append]
    exact cmCount_foldR_le more t p (foldR s ts)
  · intro ts
    rw [cmSumCells_eq_length, foldR_cm_length]
    simp [YelpDataSubscriber.initState]
  · intro s ts
    rw [subscribe_records]

/-- C5: the learn step is unconditional — after any processed record the
model state is `learn_one` of the previous model with that record's
`(text, sentiment)` pair, with no hypothesis on whether the predict step
produced a prediction; and each step returns exactly the learned state
together with the pre-learn prediction. -/
theorem c5_learn_unconditional :
    ∀ (s : YelpDataSubscriber) (ts : List (String × JLeaf)) (t : String)
      (l : JLeaf),
      (foldR s (ts ++ [(t, l)])).model = learn_one (foldR s ts).model t l ∧
      (run_model_pipeline (foldR s ts) (recordEvent t l)).2 =
        .ok (stepR (foldR s ts) t l, predict_one (foldR s ts).model t) := by
  intro s ts t l
  constructor
  · rw [foldR_append]
    rfl
  · rw [run_model_pipeline_record]

/-- C6: a malformed event payload is not handled — the deserialization
error propagates out of the per-event handler (`run_model_pipeline`,
`check_metrics`) and terminates the consuming loop of the Online Learner
and of the Metrics Monitor: the loop's result is the error, and the events
after the malformed one contribute nothing, whatever they are. -/
theorem c6_deserialization_error_fatal :
    (∀ (s : YelpDataSubscriber) (ts : List (String × JLeaf)) (e : Event)
       (rest : List Event) (pubE : List Event) (err : PyErr),
      run_model_pipeline (foldR s ts) e = (pubE, .error err) →
      YelpDataSubscriber.subscribe s
          ((ts.map (fun p => recordEvent p.1 p.2)) ++ e :: rest) =
        (pubsR s ts ++ pubE, predsR s ts, .error err)) ∧
    (∀ (m : MetricsSubscriber) (good : List Event) (e : Event)
       (rest : List Event) (wss : List (List Warning)) (err : PyErr),
      MetricsSubscriber.subscribe m good = (wss, .ok ()) →
      check_metrics m e = .error err →
      MetricsSubscriber.subscribe m (good ++ e :: rest) =
        (wss, .error err)) := by
  constructor
  · intro s ts e rest pubE err hstep
    have hb := subscribe_records ts s
    rw [runOnRecords] at hb
    rw [subscribe_append (e :: rest) _ _ _ _ _ hb]
    have htail : YelpDataSubscriber.subscribe (foldR s ts) (e :: rest) =
        (pubE, [], .error err) := by
      simp [YelpDataSubscriber.subscribe, hstep]
    rw [htail]
    simp
  · intro m good e rest wss err hgood hc
    rw [msubscribe_append (e :: rest) _ _ _ hgood]
    have htail : MetricsSubscriber.subscribe m (e :: rest) =
        ([], .error err) := by
      simp [MetricsSubscriber.subscribe, hc]
    rw [htail]
    simp

/-- C6 witness: with a fresh learner, a payload that is not a JSON object
kills the loop immediately (a trailing event is never processed), and the
same for the monitor. -/
theorem c6_witness :
    YelpDataSubscriber.subscribe YelpDataSubscriber.initState
        ((([] : List (String × JLeaf)).map (fun p => recordEvent p.1 p.2)) ++
          (⟨none, "application/json"⟩ : Event) ::
            [(⟨none, "application/json"⟩ : Event)]) =
      (pubsR YelpDataSubscriber.initState [] ++ [],
       predsR YelpDataSubscriber.initState [], .error .jsonError) ∧
    MetricsSubscriber.subscribe defaultMetricsSubscriber
        ([] ++ (⟨none, "application/json"⟩ : Event) :: []) =
      ([], .error .jsonError) :=
  ⟨c6_deserialization_error_fatal.1 YelpDataSubscriber.initState [] _ _ [] _
      rfl,
   c6_deserialization_error_fatal.2 defaultMetricsSubscriber [] _ [] [] _
      rfl rfl⟩

/-- C7: every metric snapshot the Online Learner publishes carries the
precision and recall read from the confusion matrix right after that
step's update, and both readings lie in [0,1] whenever the corresponding
denominator over the matrix (positive class 0) is nonzero. -/
theorem c7_snapshot_values_in_unit_interval :
    (∀ cm : CM,
      (precisionDen cm ≠ 0 → 0 ≤ precisionGet cm ∧ precisionGet cm ≤ 1) ∧
      (recallDen cm ≠ 0 → 0 ≤ recallGet cm ∧ recallGet cm ≤ 1)) ∧
    (∀ (s : YelpDataSubscriber) (ts : List (String × JLeaf)),
      (runOnRecords s ts).1 =
        (cmTraceR s ts).map
          (fun c => snapshotEvent (precisionGet c) (recallGet c))) := by
  constructor
  · intro cm
    exact ⟨precisionGet_bounds cm, recallGet_bounds cm⟩
  · intro s ts
    rw [subscribe_records]
    rfl

/-- C7 witness: on the matrix holding one true-positive observation both
denominators are nonzero and both metrics are within [0,1]. -/
theorem c7_witness :
    (precisionDen [(pos_val, pos_val)] ≠ 0 ∧
      0 ≤ precisionGet [(pos_val, pos_val)] ∧
      precisionGet [(pos_val, pos_val)] ≤ 1) ∧
    (recallDen [(pos_val, pos_val)] ≠ 0 ∧
      0 ≤ recallGet [(pos_val, pos_val)] ∧
      recallGet [(pos_val, pos_val)] ≤ 1) :=
  ⟨⟨by decide,
    (c7_snapshot_values_in_unit_interval.1 [(pos_val, pos_val)]).1
      (by decide)⟩,
   ⟨by decide,
    (c7_snapshot_values_in_unit_interval.1 [(pos_val, pos_val)]).2
      (by decide)⟩⟩

/-- C8: the publisher emits exactly one event per record of the loaded
source, in source order, each carrying that record's serialization as its
payload; decoding the published sequence returns the records in their
original order. -/
theorem c8_publish_one_event_per_record :
    ∀ records : List JObj,
      (YelpDataPublisher.publish records).length = records.length ∧
      (YelpDataPublisher.publish records).map (fun e => jsonLoads e.data) =
        records.map Except.ok ∧
      ∀ i : ℕ, (YelpDataPublisher.publish records)[i]? =
        records[i]?.map mkEvent := by
  intro rs
  refine ⟨by simp [YelpDataPublisher.publish], ?_, ?_⟩
  · rw [YelpDataPublisher.publish, List.map_map]
    exact List.map_congr_left (fun r _ => rfl)
  · intro i
    rw [YelpDataPublisher.publish, List.getElem?_map]

/-- C9: the Metrics Monitor is memoryless — two monitors with the same
threshold and the same logger presence, having successfully processed
arbitrary (different) histories, produce the same warning batch and the
same outcome on a snapshot with the same precision and recall values. -/
theorem c9_monitor_memoryless :
    ∀ (m1 m2 : MetricsSubscriber) (h1 h2 : List Event)
      (wss1 wss2 : List (List Warning)) (p r : ℚ),
      m1.threshold = m2.threshold → m1.logger = m2.logger →
      MetricsSubscriber.subscribe m1 h1 = (wss1, .ok ()) →
      MetricsSubscriber.subscribe m2 h2 = (wss2, .ok ()) →
      ∃ (tl : List (List Warning)) (res : Except PyErr Unit),
        MetricsSubscriber.subscribe m1 (h1 ++ [snapshotEvent p r]) =
          (wss1 ++ tl, res) ∧
        MetricsSubscriber.subscribe m2 (h2 ++ [snapshotEvent p r]) =
          (wss2 ++ tl, res) := by
  intro m1 m2 h1 h2 wss1 wss2 p r ht hl hs1 hs2
  rw [msubscribe_append [snapshotEvent p r] h1 m1 wss1 hs1,
    msubscribe_append [snapshotEvent p r] h2 m2 wss2 hs2]
  refine ⟨(MetricsSubscriber.subscribe m1 [snapshotEvent p r]).1,
    (MetricsSubscriber.subscribe m1 [snapshotEvent p r]).2, rfl, ?_⟩
  have hce : check_metrics m2 (snapshotEvent p r) =
      check_metrics m1 (snapshotEvent p r) :=
    check_metrics_ext m2 m1 _ ht.symm hl.symm
  simp [MetricsSubscriber.subscribe, hce]

/-- C9 witness: two monitors with threshold 0.60 and a logger, one with an
empty history and one having already processed a healthy snapshot, react
identically to the snapshot (0.5, 0.7). -/
theorem c9_witness :
    ∃ (tl : List (List Warning)) (res : Except PyErr Unit),
      MetricsSubscriber.subscribe
          (⟨"a", (0.60 : ℚ), some ()⟩ : MetricsSubscriber)
          ([] ++ [snapshotEvent (0.5 : ℚ) (0.7 : ℚ)]) = ([] ++ tl, res) ∧
      MetricsSubscriber.subscribe
          (⟨"b", (0.60 : ℚ), some ()⟩ : MetricsSubscriber)
          ([snapshotEvent 1 1] ++ [snapshotEvent (0.5 : ℚ) (0.7 : ℚ)]) =
        ([[]] ++ tl, res) :=
  c9_monitor_memoryless _ _ _ _ [] [[]] _ _ rfl rfl rfl
    (by
      have hc : check_metrics
          (⟨"b", (0.60 : ℚ), some ()⟩ : MetricsSubscriber)
          (snapshotEvent 1 1) = .ok [] := by
        rw [check_metrics_snapshot_logged]
        norm_num
      simp [MetricsSubscriber.subscribe, hc])

/-- C10: the monitor's constructor defaults the logger to `None`; a
snapshot with either metric strictly below the default threshold then
makes `check_metrics` dereference `None` (`AttributeError`), killing the
consume loop, while a snapshot with both metrics at or above the threshold
is processed without error. -/
theorem c10_default_logger_none_crashes_on_breach :
    defaultMetricsSubscriber.logger = none ∧
    (∀ (p r : ℚ) (rest : List Event),
      (p < defaultMetricsSubscriber.threshold ∨
          r < defaultMetricsSubscriber.threshold →
        check_metrics defaultMetricsSubscriber (snapshotEvent p r) =
          .error .attributeError ∧
        MetricsSubscriber.subscribe defaultMetricsSubscriber
            (snapshotEvent p r :: rest) = ([], .error .attributeError)) ∧
      (¬ p < defaultMetricsSubscriber.threshold →
        ¬ r < defaultMetricsSubscriber.threshold →
        check_metrics defaultMetricsSubscriber (snapshotEvent p r) =
          .ok [])) := by
  refine ⟨rfl, ?_⟩
  intro p r rest
  constructor
  · intro hbr
    have hcheck :
        check_metrics defaultMetricsSubscriber (snapshotEvent p r) =
          .error .attributeError :=
      check_metrics_nologger_breach "river_metrics" (0.60 : ℚ) p r hbr
    exact ⟨hcheck, by simp [MetricsSubscriber.subscribe, hcheck]⟩
  · intro hp hr
    exact check_metrics_nologger_ok "river_metrics" (0.60 : ℚ) p r hp hr

/-- C10 witness: with the default (logger-less) monitor the snapshot
(0.5, 1) raises `AttributeError` and kills the loop, while (1, 1) is
processed without error. -/
theorem c10_witness :
    (check_metrics defaultMetricsSubscriber
        (snapshotEvent (0.5 : ℚ) 1) = .error .attributeError ∧
      MetricsSubscriber.subscribe defaultMetricsSubscriber
          (snapshotEvent (0.5 : ℚ) 1 :: []) =
        ([], .error .attributeError)) ∧
    check_metrics defaultMetricsSubscriber (snapshotEvent 1 1) = .ok [] :=
  ⟨(c10_default_logger_none_crashes_on_breach.2 (0.5 : ℚ) 1 []).1
      (Or.inl (by norm_num [defaultMetricsSubscriber])),
   (c10_default_logger_none_crashes_on_breach.2 1 1 []).2
      (by norm_num [defaultMetricsSubscriber])
      (by norm_num [defaultMetricsSubscriber])⟩

end RiverSentiment
